import Mathlib

/-!
Verification of the sawtooth validator launcher (`src/validator/src/main.rs`).

The launcher acquires the embedded Python runtime (the GIL), parses the
command line, configures the logging bridge, marshals the parsed arguments
into a Python dict, imports `sawtooth_validator.server.cli` and calls its
`main` function with that dict as the single argument.

`main.rs` is the only Rust source present; the `cli` and `pylogger` modules
it calls (`cli::parse_args`, `cli::wrap_in_pydict`, `pylogger::set_up_logger`)
are not in the tree, so their behaviour is modelled from the specification
where noted.  `main` itself is embedded as a function from an environment —
the outcome of each fallible external step — to the trace of observable
events it performs together with the process exit kind.
-/

/-- A value carried by a configuration option: string, boolean or integer
(spec §3, ConfigurationObject value types). -/
inductive ConfigValue
  | str (s : String)
  | bool (b : Bool)
  | int (n : Int)
deriving DecidableEq, Repr

/-- A configuration dictionary: an order-irrelevant association of option
names to values, as passed across the embedding boundary (the `PyDict`
built by `cli::wrap_in_pydict`). -/
abbrev ConfigDict := List (String × ConfigValue)

/-- Modelled from the spec: `ParsedArguments` produced by `cli::parse_args`
(the `cli` module is not in the tree).  An immutable record of a verbosity
counter plus named options (spec §3). -/
structure ParsedArguments where
  verbosity : Nat
  options : ConfigDict
deriving DecidableEq, Repr

/-- Modelled from the spec: `cli::wrap_in_pydict` (the `cli` module is not in
the tree).  The marshaller's total, lossless mapping: every option of
`ParsedArguments` appears under the same key with the same value in the
configuration dictionary (spec §4.4, §8 round-trip property). -/
def wrap_in_pydict (args : ParsedArguments) : ConfigDict :=
  args.options

/-- The process-wide log level chosen by the logging bridge (spec §3). -/
inductive LogLevel
  | warning
  | info
  | debug
  | trace
deriving DecidableEq, Repr

/-- Modelled from the spec: the verbosity-to-level table used by
`pylogger::set_up_logger` (the `pylogger` module is not in the tree):
0→warning, 1→info, 2→debug, ≥3→trace (spec §3). -/
def logLevelOf (v : Nat) : LogLevel :=
  match v with
  | 0 => LogLevel.warning
  | 1 => LogLevel.info
  | 2 => LogLevel.debug
  | _ + 3 => LogLevel.trace

/-- Verbosity rank of a level: how verbose it is (warning quietest). -/
def levelRank (l : LogLevel) : Nat :=
  match l with
  | LogLevel.warning => 0
  | LogLevel.info => 1
  | LogLevel.debug => 2
  | LogLevel.trace => 3

/-- A diagnostic rendered to the operator.  For errors coming back from the
embedded environment (`err.print(*py)` in `main.rs`) the payload is the
embedded environment's own message; an import failure's rendering names the
missing module (a Python `ImportError` names the module it failed to load). -/
inductive Diagnostic
  | runtimeUnavailable
  | parseError
  | loggerInitError
  | marshalError (msg : String)
  | importError (module : String)
  | callError (msg : String)
deriving DecidableEq, Repr

/-- Observable events of one launcher execution, in program order. -/
inductive Event
  | acquireRuntime
  | parseArgs
  | setUpLogger (verbosity : Nat) (level : LogLevel)
  | wrapInPydict
  | importModule (name : String)
  | callEntryPoint (module : String) (fn : String)
      (args : List ConfigDict) (kwargs : Option ConfigDict)
  | printDiagnostic (d : Diagnostic)
  | releaseRuntime
deriving DecidableEq, Repr

/-- How the process terminated.  `normal` is a return from `main` (exit
status 0); `panicked` is a Rust panic (`unwrap` on `Err`, nonzero status);
`aborted` is a fatal exit performed inside a sub-stage (nonzero status,
modelled from the spec for the stages not in the tree). -/
inductive ExitKind
  | normal
  | panicked
  | aborted
deriving DecidableEq, Repr

/-- Whether the exit status is nonzero. -/
def exitNonzero (k : ExitKind) : Bool :=
  match k with
  | ExitKind.normal => false
  | ExitKind.panicked => true
  | ExitKind.aborted => true

/-- Outcomes of the fallible external steps of one execution: whether the
embedded runtime can be acquired, what `cli::parse_args` yields (`none` is a
parse failure), whether the logging subsystem initialises, whether the
embedded environment rejects a value during marshalling, whether the import
of the entry-point module succeeds, and whether the invoked entry point
raises (`some msg` is the failure's rendering). -/
structure Env where
  runtimeAvailable : Bool
  parseResult : Option ParsedArguments
  loggerInitOk : Bool
  marshalError : Option String
  importOk : Bool
  callError : Option String
deriving DecidableEq, Repr

/-- The result of one execution: the event trace and the exit kind. -/
structure Execution where
  events : List Event
  exit : ExitKind
deriving DecidableEq, Repr

/-- The fixed module path imported by `main.rs`
(`py.import("sawtooth_validator.server.cli")`). -/
def VALIDATOR_MODULE : String := "sawtooth_validator.server.cli"

/-- The fixed function name invoked by `main.rs`
(`cli.call(*py, "main", (pydict,), None)`). -/
def ENTRY_FUNCTION : String := "main"

/-- Shallow embedding of `main` in `src/validator/src/main.rs`.

Line by line: `Python::acquire_gil()` (held to end of scope on every path);
`cli::parse_args()` (modelled from the spec: a parse failure reports the
error and exits nonzero before anything later runs);
`pylogger::set_up_logger(verbosity, py)` (modelled from the spec: a logging
initialisation failure is fatal); `cli::wrap_in_pydict(py, &args)
.map_err(|err| err.print(*py)).unwrap()` — on `Err` the diagnostic is
printed and `unwrap` panics, unwinding through the GIL guard;
`py.import("sawtooth_validator.server.cli")` — on `Err` the error is printed
and `main` returns (exit status 0); `cli.call(*py, "main", (pydict,), None)`
— on `Err` the error is printed and `main` falls off the end (exit 0). -/
def rustMain (env : Env) : Execution :=
  if env.runtimeAvailable then
    match env.parseResult with
    | none =>
        { events := [Event.acquireRuntime, Event.parseArgs,
                     Event.printDiagnostic Diagnostic.parseError,
                     Event.releaseRuntime],
          exit := ExitKind.aborted }
    | some args =>
        let v := args.verbosity
        if env.loggerInitOk then
          match env.marshalError with
          | some msg =>
              { events := [Event.acquireRuntime, Event.parseArgs,
                           Event.setUpLogger v (logLevelOf v),
                           Event.wrapInPydict,
                           Event.printDiagnostic (Diagnostic.marshalError msg),
                           Event.releaseRuntime],
                exit := ExitKind.panicked }
          | none =>
              let pydict := wrap_in_pydict args
              if env.importOk then
                match env.callError with
                | some msg =>
                    { events := [Event.acquireRuntime, Event.parseArgs,
                                 Event.setUpLogger v (logLevelOf v),
                                 Event.wrapInPydict,
                                 Event.importModule VALIDATOR_MODULE,
                                 Event.callEntryPoint VALIDATOR_MODULE
                                   ENTRY_FUNCTION [pydict] none,
                                 Event.printDiagnostic (Diagnostic.callError msg),
                                 Event.releaseRuntime],
                      exit := ExitKind.normal }
                | none =>
                    { events := [Event.acquireRuntime, Event.parseArgs,
                                 Event.setUpLogger v (logLevelOf v),
                                 Event.wrapInPydict,
                                 Event.importModule VALIDATOR_MODULE,
                                 Event.callEntryPoint VALIDATOR_MODULE
                                   ENTRY_FUNCTION [pydict] none,
                                 Event.releaseRuntime],
                      exit := ExitKind.normal }
              else
                { events := [Event.acquireRuntime, Event.parseArgs,
                             Event.setUpLogger v (logLevelOf v),
                             Event.wrapInPydict,
                             Event.importModule VALIDATOR_MODULE,
                             Event.printDiagnostic
                               (Diagnostic.importError VALIDATOR_MODULE),
                             Event.releaseRuntime],
                  exit := ExitKind.normal }
        else
          { events := [Event.acquireRuntime, Event.parseArgs,
                       Event.setUpLogger v (logLevelOf v),
                       Event.printDiagnostic Diagnostic.loggerInitError,
                       Event.releaseRuntime],
            exit := ExitKind.aborted }
  else
    { events := [Event.printDiagnostic Diagnostic.runtimeUnavailable],
      exit := ExitKind.aborted }

/-- The scenario arguments of spec §8: verbosity 2 and one endpoint option. -/
def scenarioArgs : ParsedArguments :=
  { verbosity := 2
    options := [("endpoint", ConfigValue.str "tcp://127.0.0.1:4004")] }

/-- An environment in which every external step succeeds. -/
def envOk : Env :=
  { runtimeAvailable := true
    parseResult := some scenarioArgs
    loggerInitOk := true
    marshalError := none
    importOk := true
    callError := none }

/-- An environment in which only the import of the entry-point module fails. -/
def envImportFail : Env :=
  { runtimeAvailable := true
    parseResult := some scenarioArgs
    loggerInitOk := true
    marshalError := none
    importOk := false
    callError := none }

/-- An environment in which only the entry-point invocation fails. -/
def envCallFail : Env :=
  { envOk with callError := some "ValueError: invalid config" }

/-- An environment in which only the marshalling step fails. -/
def envMarshalFail : Env :=
  { envOk with marshalError := some "TypeError: unrepresentable value" }

/-- Is this event the invocation of an entry point in the embedded runtime? -/
def isCall (e : Event) : Bool :=
  match e with
  | Event.callEntryPoint _ _ _ _ => true
  | _ => false

/-- Is this event the resolution of a module in the embedded runtime? -/
def isImport (e : Event) : Bool :=
  match e with
  | Event.importModule _ => true
  | _ => false

/-- Is this event the acquisition of the runtime handle? -/
def isAcquire (e : Event) : Bool :=
  match e with
  | Event.acquireRuntime => true
  | _ => false

/-- Is this event the release of the runtime handle? -/
def isRelease (e : Event) : Bool :=
  match e with
  | Event.releaseRuntime => true
  | _ => false

/-- Is this event the rendering of a diagnostic (a fatal error report)? -/
def isDiagnostic (e : Event) : Bool :=
  match e with
  | Event.printDiagnostic _ => true
  | _ => false

/-- Is this event an invocation of embedded code other than importing
`sawtooth_validator.server.cli` or calling its `main` function? -/
def isForeignInvocation (e : Event) : Bool :=
  match e with
  | Event.importModule n => !(n == VALIDATOR_MODULE)
  | Event.callEntryPoint m f _ _ => !(m == VALIDATOR_MODULE && f == ENTRY_FUNCTION)
  | _ => false

/-- The lifecycle states of spec §4.5, in order of entry. -/
inductive Stage
  | runtimeAcquired
  | argsParsed
  | loggingConfigured
  | configBuilt
  | dispatched
deriving DecidableEq, Repr

/-- The lifecycle state entered by an event, if any.  Module resolution is
part of the transition into `dispatched`; the `dispatched` state itself is
the invocation of the entry point. -/
def stageOf (e : Event) : Option Stage :=
  match e with
  | Event.acquireRuntime => some Stage.runtimeAcquired
  | Event.parseArgs => some Stage.argsParsed
  | Event.setUpLogger _ _ => some Stage.loggingConfigured
  | Event.wrapInPydict => some Stage.configBuilt
  | Event.callEntryPoint _ _ _ _ => some Stage.dispatched
  | _ => none

/-- The canonical one-way state order of spec §4.5. -/
def stageOrder : List Stage :=
  [Stage.runtimeAcquired, Stage.argsParsed, Stage.loggingConfigured,
   Stage.configBuilt, Stage.dispatched]

/-- C1, counterexample: an execution whose only failure is entry-point
resolution — a fatal condition per the claim — prints the diagnostic yet
exits with status 0, because `main.rs` handles the import error with
`err.print(*py); return;` and a plain return from `main` exits 0.  This
refutes "the process terminates with a nonzero exit status" for fatal
conditions. -/
theorem c1_exit_counterexample :
    envImportFail.importOk = false ∧
    Event.printDiagnostic (Diagnostic.importError VALIDATOR_MODULE)
      ∈ (rustMain envImportFail).events ∧
    exitNonzero (rustMain envImportFail).exit = false := by
  refine ⟨rfl, ?_, rfl⟩
  decide

/-- C1, amended: the process exits with status 0 exactly when the runtime is
acquired, argument parsing succeeds, the logger initialises and marshalling
succeeds; those four failures exit nonzero, but a failure of the import or
of the embedded entry point is only printed, and the process still exits
with status 0. -/
theorem c1_exit_status (env : Env) :
    exitNonzero (rustMain env).exit = false ↔
      (env.runtimeAvailable = true ∧ env.parseResult.isSome = true ∧
       env.loggerInitOk = true ∧ env.marshalError = none) := by
  obtain ⟨ra, pr, lo, me, io, ce⟩ := env
  cases ra <;> cases pr <;> cases lo <;> cases me <;> cases io <;> cases ce <;>
    simp [rustMain, exitNonzero]

/-- C2: when the import of the entry-point module fails, the entry point is
never invoked, a diagnostic naming the missing module is rendered, and the
trace ends with the runtime release — no later stage runs. -/
theorem c2_import_failure_no_dispatch (env : Env) (args : ParsedArguments)
    (hra : env.runtimeAvailable = true)
    (hpr : env.parseResult = some args)
    (hlo : env.loggerInitOk = true)
    (hme : env.marshalError = none)
    (him : env.importOk = false) :
    (rustMain env).events.countP isCall = 0 ∧
    Event.printDiagnostic (Diagnostic.importError VALIDATOR_MODULE)
      ∈ (rustMain env).events ∧
    (rustMain env).events.getLast? = some Event.releaseRuntime := by
  obtain ⟨ra, pr, lo, me, io, ce⟩ := env
  subst hra hlo him hme hpr
  exact ⟨rfl, by simp [rustMain], rfl⟩

/-- C2, witness: a concrete execution in which only the import fails. -/
theorem c2_import_failure_witness :
    (rustMain envImportFail).events.countP isCall = 0 ∧
    Event.printDiagnostic (Diagnostic.importError VALIDATOR_MODULE)
      ∈ (rustMain envImportFail).events ∧
    (rustMain envImportFail).events.getLast? = some Event.releaseRuntime :=
  c2_import_failure_no_dispatch envImportFail scenarioArgs rfl rfl rfl rfl rfl

/-- C3: every failure raised by the invocation of the entry point is rendered
as a diagnostic carrying the embedded environment's message — no invocation
failure is silently discarded. -/
theorem c3_call_failure_rendered (env : Env) (args : ParsedArguments) (msg : String)
    (hra : env.runtimeAvailable = true)
    (hpr : env.parseResult = some args)
    (hlo : env.loggerInitOk = true)
    (hme : env.marshalError = none)
    (hio : env.importOk = true)
    (hce : env.callError = some msg) :
    Event.printDiagnostic (Diagnostic.callError msg) ∈ (rustMain env).events := by
  obtain ⟨ra, pr, lo, me, io, ce⟩ := env
  subst hra hlo hme hio hce hpr
  simp [rustMain]

/-- C3, witness: a concrete execution in which the entry point raises. -/
theorem c3_call_failure_witness :
    Event.printDiagnostic (Diagnostic.callError "ValueError: invalid config")
      ∈ (rustMain envCallFail).events :=
  c3_call_failure_rendered envCallFail scenarioArgs "ValueError: invalid config"
    rfl rfl rfl rfl rfl rfl

/-- C4: any invocation of the entry point in an execution passes exactly one
argument — the marshalled configuration dictionary of the parsed arguments —
and no keyword arguments. -/
theorem c4_dispatch_single_argument (env : Env) (args : ParsedArguments)
    (m f : String) (a : List ConfigDict) (k : Option ConfigDict)
    (hpr : env.parseResult = some args)
    (hmem : Event.callEntryPoint m f a k ∈ (rustMain env).events) :
    a = [wrap_in_pydict args] ∧ k = none := by
  obtain ⟨ra, pr, lo, me, io, ce⟩ := env
  subst hpr
  cases ra <;> cases lo <;> cases me <;> cases io <;> cases ce <;>
    simp_all [rustMain]

/-- C4, witness: a concrete successful execution whose dispatch event is
checked to carry the marshalled scenario configuration alone. -/
theorem c4_dispatch_single_argument_witness :
    [wrap_in_pydict scenarioArgs] = [wrap_in_pydict scenarioArgs] ∧
    (none : Option ConfigDict) = none :=
  c4_dispatch_single_argument envOk scenarioArgs VALIDATOR_MODULE ENTRY_FUNCTION
    [wrap_in_pydict scenarioArgs] none rfl (by decide)

/-- C5: when marshalling the parsed arguments fails, the failure is reported
(printed, then the `unwrap` panics), the process exits nonzero, and neither
the import nor the dispatch ever runs. -/
theorem c5_marshal_failure_aborts (env : Env) (args : ParsedArguments) (msg : String)
    (hra : env.runtimeAvailable = true)
    (hpr : env.parseResult = some args)
    (hlo : env.loggerInitOk = true)
    (hme : env.marshalError = some msg) :
    exitNonzero (rustMain env).exit = true ∧
    Event.printDiagnostic (Diagnostic.marshalError msg) ∈ (rustMain env).events ∧
    (rustMain env).events.countP isImport = 0 ∧
    (rustMain env).events.countP isCall = 0 := by
  obtain ⟨ra, pr, lo, me, io, ce⟩ := env
  subst hra hlo hme hpr
  exact ⟨rfl, by simp [rustMain], rfl, rfl⟩

/-- C5, witness: a concrete execution in which only marshalling fails. -/
theorem c5_marshal_failure_witness :
    exitNonzero (rustMain envMarshalFail).exit = true ∧
    Event.printDiagnostic (Diagnostic.marshalError "TypeError: unrepresentable value")
      ∈ (rustMain envMarshalFail).events ∧
    (rustMain envMarshalFail).events.countP isImport = 0 ∧
    (rustMain envMarshalFail).events.countP isCall = 0 :=
  c5_marshal_failure_aborts envMarshalFail scenarioArgs
    "TypeError: unrepresentable value" rfl rfl rfl rfl

/-- C6: every execution's sequence of entered lifecycle states is an initial
segment of `Start → RuntimeAcquired → ArgsParsed → LoggingConfigured →
ConfigBuilt → Dispatched` (so the order is fixed and no state is entered
twice), and from the first rendered diagnostic onward no further lifecycle
state is entered — a fatal error short-circuits to termination. -/
theorem c6_stage_sequence (env : Env) :
    ((rustMain env).events.filterMap stageOf).isPrefixOf stageOrder = true ∧
    ((rustMain env).events.dropWhile (fun e => !(isDiagnostic e))).filterMap stageOf
      = [] := by
  obtain ⟨ra, pr, lo, me, io, ce⟩ := env
  cases ra <;> cases pr <;> cases lo <;> cases me <;> cases io <;> cases ce <;>
    exact ⟨rfl, rfl⟩

/-- C7: whenever the runtime is available, the handle is acquired exactly
once, as the first event — wrapping all remaining control flow — and
released exactly once, as the last event, on every exit path. -/
theorem c7_runtime_guard (env : Env)
    (h : env.runtimeAvailable = true) :
    (rustMain env).events.countP isAcquire = 1 ∧
    (rustMain env).events.countP isRelease = 1 ∧
    (rustMain env).events.head? = some Event.acquireRuntime ∧
    (rustMain env).events.getLast? = some Event.releaseRuntime := by
  obtain ⟨ra, pr, lo, me, io, ce⟩ := env
  subst h
  cases pr <;> cases lo <;> cases me <;> cases io <;> cases ce <;>
    exact ⟨rfl, rfl, rfl, rfl⟩

/-- C7, witness: the guard bracketing checked on a concrete failing path. -/
theorem c7_runtime_guard_witness :
    (rustMain envMarshalFail).events.countP isAcquire = 1 ∧
    (rustMain envMarshalFail).events.countP isRelease = 1 ∧
    (rustMain envMarshalFail).events.head? = some Event.acquireRuntime ∧
    (rustMain envMarshalFail).events.getLast? = some Event.releaseRuntime :=
  c7_runtime_guard envMarshalFail rfl

/-- Helper: the verbosity rank of the chosen level is the verbosity count
capped at 3. -/
theorem levelRank_logLevelOf (v : Nat) : levelRank (logLevelOf v) = min v 3 := by
  match v with
  | 0 => rfl
  | 1 => rfl
  | 2 => rfl
  | n + 3 =>
    show (3 : Nat) = min (n + 3) 3
    omega

/-- C8: the logging bridge's level selection is the fixed table 0→warning,
1→info, 2→debug, ≥3→trace, and it is monotonic non-decreasing: a higher
verbosity count never selects a quieter level. -/
theorem c8_loglevel_monotonic :
    (logLevelOf 0 = LogLevel.warning ∧ logLevelOf 1 = LogLevel.info ∧
     logLevelOf 2 = LogLevel.debug ∧ ∀ v, 3 ≤ v → logLevelOf v = LogLevel.trace) ∧
    (∀ v1 v2, v1 ≤ v2 → levelRank (logLevelOf v1) ≤ levelRank (logLevelOf v2)) := by
  constructor
  · refine ⟨rfl, rfl, rfl, ?_⟩
    intro v hv
    match v, hv with
    | n + 3, _ => rfl
  · intro v1 v2 h
    rw [levelRank_logLevelOf, levelRank_logLevelOf]
    omega

/-- C8, witness: the table and the monotonicity at concrete verbosities. -/
theorem c8_loglevel_monotonic_witness :
    logLevelOf 5 = LogLevel.trace ∧
    levelRank (logLevelOf 1) ≤ levelRank (logLevelOf 4) :=
  ⟨c8_loglevel_monotonic.1.2.2.2 5 (by decide),
   c8_loglevel_monotonic.2 1 4 (by decide)⟩

/-- C9: every option of the parsed arguments appears in the marshalled
configuration dictionary, and its key occurs there exactly once — no option
is lost, duplicated, or altered. -/
theorem c9_marshalling_roundtrip (args : ParsedArguments)
    (k : String) (v : ConfigValue)
    (hnodup : (args.options.map Prod.fst).Nodup)
    (hmem : (k, v) ∈ args.options) :
    (k, v) ∈ wrap_in_pydict args ∧
    (wrap_in_pydict args).countP (fun p => p.1 == k) = 1 := by
  refine ⟨hmem, ?_⟩
  have h1 : k ∈ args.options.map Prod.fst := List.mem_map_of_mem Prod.fst hmem
  have h2 : (args.options.map Prod.fst).count k = 1 :=
    List.count_eq_one_of_mem hnodup h1
  calc (wrap_in_pydict args).countP (fun p => p.1 == k)
      = (args.options.map Prod.fst).countP (fun a => a == k) := by
        rw [List.countP_map]
        rfl
    _ = (args.options.map Prod.fst).count k := rfl
    _ = 1 := h2

/-- C9, witness: the roundtrip at the §8 scenario's endpoint option. -/
theorem c9_marshalling_roundtrip_witness :
    ("endpoint", ConfigValue.str "tcp://127.0.0.1:4004")
      ∈ wrap_in_pydict scenarioArgs ∧
    (wrap_in_pydict scenarioArgs).countP (fun p => p.1 == "endpoint") = 1 :=
  c9_marshalling_roundtrip scenarioArgs "endpoint"
    (ConfigValue.str "tcp://127.0.0.1:4004") (by decide) (by decide)

/-- C10: the dispatched entry point is hard-coded — any entry-point
invocation in any execution imports exactly `sawtooth_validator.server.cli`
and calls exactly `main` with the configuration dictionary as its single
positional argument and no keyword arguments; the trace contains at most one
invocation and never invokes any other embedded code path. -/
theorem c10_hardcoded_entry_point (env : Env) (args : ParsedArguments)
    (m f : String) (a : List ConfigDict) (k : Option ConfigDict)
    (hpr : env.parseResult = some args)
    (hmem : Event.callEntryPoint m f a k ∈ (rustMain env).events) :
    m = VALIDATOR_MODULE ∧ f = ENTRY_FUNCTION ∧
    a = [wrap_in_pydict args] ∧ k = none ∧
    (rustMain env).events.countP isCall ≤ 1 ∧
    (rustMain env).events.countP isForeignInvocation = 0 := by
  obtain ⟨ra, pr, lo, me, io, ce⟩ := env
  subst hpr
  cases ra <;> cases lo <;> cases me <;> cases io <;> cases ce <;>
    simp_all [rustMain, isCall, isForeignInvocation]

/-- C10, witness: the hard-coded dispatch checked on a concrete successful
execution. -/
theorem c10_hardcoded_entry_point_witness :
    VALIDATOR_MODULE = VALIDATOR_MODULE ∧ ENTRY_FUNCTION = ENTRY_FUNCTION ∧
    [wrap_in_pydict scenarioArgs] = [wrap_in_pydict scenarioArgs] ∧
    (none : Option ConfigDict) = none ∧
    (rustMain envOk).events.countP isCall ≤ 1 ∧
    (rustMain envOk).events.countP isForeignInvocation = 0 :=
  c10_hardcoded_entry_point envOk scenarioArgs VALIDATOR_MODULE ENTRY_FUNCTION
    [wrap_in_pydict scenarioArgs] none rfl (by decide)
